import Mathlib

/-!
Verification of the FEELIX bot's conversation-window / entitlement state
machine against its sources (`bot/handlers.py`, `bot/utils.py`, `bot/main.py`,
`bot/config.py`).  The Python functions are shallowly embedded as executable
Lean definitions: timestamps are natural numbers (seconds), the JSON stores
are association lists, and the fallible external collaborators (the model
backend, the transport) are represented by explicit outcome parameters.
-/

namespace Feelix

/-- config.py: `DAILY_LIMIT_CHARS = 7000`. -/
def dailyLimitChars : Nat := 7000

/-- config.py: `MAX_CHAR_LIMIT = 50000`. -/
def maxCharLimit : Nat := 50000

/-- 24 hours in seconds, the lockout-window length (`timedelta(hours=24)`). -/
def daySecs : Nat := 86400

/-- config.py: `SYSTEM_PROMPT` (the persona prompt seeded at index 0). -/
def systemPromptText : String := "\nТы — эмпатичный и доброжелательный собеседник по имени FEELIX. \nТвоя задача — помогать людям справляться с эмоциональными трудностями и улучшать их настроение, \nв частности студентам университета. Собеседник может испытывать учебные нагрузки, стресс, тревогу и выгорание. \nТвоя цель — улучшить его состояние, вернуть мотивацию и уверенность.\nИнструкции:\nЗадавай вопросы, давай поддержку и предлагай полезные мысли, используя психологические методики.\nФокусируйся исключительно на собеседнике и его чувствах, избегая обсуждения себя или своей роли, если тебя об этом прямо не спрашивают.\nИзбегай повторений информации о том, что ты рядом, поддерживаешь или создаёшь безопасное пространство, если это уже было сказано ранее.\nОтвечай по делу, кратко и без избыточной информации. Говори только то, что помогает собеседнику, избегая пустых или очевидных фраз.\nПри возникновении конфликтных тем (религия, политика) мягко перевод разговор в другое русло, например: “\nДавай поговорим о чём-то другом, что волнует тебя.”\nВсегда оставайся добрым и терпеливым.\nВ случае угрозы применения насилия к другим людям или попыток навредить себе, \nнастоятельно рекомендуй обратиться за профессиональной помощью и завершай диалог.\nНе предполагай пол собеседника до тех пор, пока он сам этого не уточнит.\nВсегда используй русский язык, если только собеседник не попросит об ответе на другом языке.\n"

/-- Role string literals used by the sources. -/
def roleSystem : String := "system"

def roleUser : String := "user"

def roleAssistant : String := "assistant"

/-- utils.py / handlers.py: the gender-hint marker `"Ваш собеседник - "`. -/
def genderMarker : String := "Ваш собеседник - "

/-- The gender choice that suppresses the hint (`"Не хочу указывать"`). -/
def declineGenderText : String := "Не хочу указывать"

/-- handlers.py `add_message`: the summary-note marker. -/
def summaryMarker : String := "Вот краткое описание предыдущего диалога: "

/-- handlers.py `summarize_conversation`: fixed string returned on `httpx.HTTPStatusError`. -/
def serverFailText : String := "Суммаризация не удалась из-за ошибки сервера."

/-- handlers.py `summarize_conversation`: fixed string returned on any other exception. -/
def unknownFailText : String := "Суммаризация не удалась из-за неизвестной ошибки."

/-- handlers.py `get_openroute_response`: apology returned on any failure of the model call. -/
def apologyText : String := "Извините, произошла ошибка при обработке вашего запроса."

/-- handlers.py `get_openroute_response`: the announcing preamble for similarity results. -/
def announceText : String := "Также вот сообщения пользователя, самые близкие по смыслу к текущему сообщению. Проверь, имеют ли они отношение к обсуждаемой теме и если нужно учти их при ответе."

/-- handlers.py `get_openroute_response`: marker prefixed to each similarity result. -/
def augMarker : String := "Ранее пользователь писал: "

def emptyText : String := ""

/-- utils.py: default username for records created outside registration. -/
def unknownUserText : String := "unknown_user"

/-- A conversation message `{"role": ..., "content": ...}` as stored in
`conversation_history.json`. -/
structure Msg where
  role : String
  content : String
deriving DecidableEq, Repr

/-- Python `str.lower` restricted to the alphabets this program actually
stores (ASCII letters and the Cyrillic letters of the gender buttons). -/
def ruLowerChar (c : Char) : Char :=
  if c.toNat ≥ 0x410 ∧ c.toNat ≤ 0x42F then Char.ofNat (c.toNat + 0x20)
  else if c.toNat = 0x401 then Char.ofNat 0x451
  else c.toLower

def ruLower (s : String) : String := String.mk (s.data.map ruLowerChar)

/-- The gender-hint system message `f"Ваш собеседник - {gender.lower()}."`. -/
def genderHintMsg (g : String) : Msg :=
  Msg.mk roleSystem (String.append genderMarker (String.append (ruLower g) "."))

/-- The persona system message seeded at index 0 of every history. -/
def personaMsg : Msg := Msg.mk roleSystem systemPromptText

/-- The summary note written by `add_message` after summarization. -/
def summaryMsg (s : String) : Msg := Msg.mk roleSystem (String.append summaryMarker s)

/-- Python truthiness-plus-blacklist test
`if gender and gender not in ["Не хочу указывать"]`. -/
def genderShown (gender : Option String) : Bool :=
  match gender with
  | none => false
  | some g => !(g == emptyText) && !(g == declineGenderText)

def genderOrEmpty (gender : Option String) : String := gender.getD emptyText

/-- Substring containment, Python's `pat in s`. -/
def strContains (s pat : String) : Bool :=
  (List.range (s.data.length + 1)).any (fun i => pat.data.isPrefixOf (s.data.drop i))

/-- Python `list.insert(1, m)`. -/
def insertSecond (l : List Msg) (m : Msg) : List Msg :=
  match l with
  | [] => [m]
  | x :: rest => x :: m :: rest

/-- `sum(len(msg["content"]) for msg in history)`. -/
def totalChars (h : List Msg) : Nat := (h.map (fun m => m.content.length)).sum

/-- Outcome of one call to the OpenRouter model collaborator. -/
inductive UpstreamResult where
  | ok (text : String)
  | httpError
  | otherError
deriving DecidableEq, Repr

/-- handlers.py `summarize_conversation`: delegates to the model collaborator
and converts every failure into a fixed human-readable string (it is a total
function — no exception escapes). -/
def summarize_conversation : UpstreamResult → String
  | UpstreamResult.ok t => t
  | UpstreamResult.httpError => serverFailText
  | UpstreamResult.otherError => unknownFailText

/-- handlers.py `get_openroute_response`: the reply string handed back to the
caller — on any failure of the model call the fixed apology is returned. -/
def getOpenrouteReply : UpstreamResult → String
  | UpstreamResult.ok t => t
  | UpstreamResult.httpError => apologyText
  | UpstreamResult.otherError => apologyText

/-- The reseeded history written by `add_message` after summarization:
`[System(persona)] (+ [System(gender hint)]) + [System(summary note)]`. -/
def reset_history (gender : Option String) (summary : String) : List Msg :=
  match gender with
  | some g =>
    if !(g == emptyText) && !(g == declineGenderText) then
      [personaMsg, genderHintMsg g, summaryMsg summary]
    else
      [personaMsg, summaryMsg summary]
  | none => [personaMsg, summaryMsg summary]

/-- utils.py `load_user_history`, branch where the history file exists:
loads the stored messages and inserts the gender hint at index 1 when a
shown gender is set and no system message mentions it yet. -/
def load_user_history (gender : Option String) (stored : List Msg) : List Msg :=
  let hasG := stored.any (fun m => m.role == roleSystem && strContains m.content genderMarker)
  if genderShown gender && !hasG then
    insertSecond stored (genderHintMsg (genderOrEmpty gender))
  else
    stored

/-- Result of handlers.py `add_message`: the persisted history, whether a
summarization fired, and the `DAILY_LIMITS[user_id] = datetime.now()`
side effect (recorded as the timestamp written, if any). -/
structure AddMsgResult where
  history : List Msg
  summarized : Bool
  dailyLimitAt : Option Nat
deriving DecidableEq, Repr

/-- handlers.py `add_message`: appends the messages, then
(1) for non-premium users over `DAILY_LIMIT_CHARS` summarizes, resets the
history and records the daily-limit timestamp; (2) otherwise for anyone over
`MAX_CHAR_LIMIT` summarizes and resets.  `upstream` is the outcome of the
summarization call (used only if a reset fires). -/
def add_message (isPremium : Bool) (gender : Option String) (upstream : UpstreamResult)
    (now : Nat) (history : List Msg) (role : String) (content : List String) : AddMsgResult :=
  let h1 := history ++ content.map (fun c => Msg.mk role c)
  let total := totalChars h1
  if !isPremium && decide (dailyLimitChars < total) then
    AddMsgResult.mk (reset_history gender (summarize_conversation upstream)) true (some now)
  else if decide (maxCharLimit < total) then
    AddMsgResult.mk (reset_history gender (summarize_conversation upstream)) true none
  else
    AddMsgResult.mk h1 false none

/-- One entry of `daily_usage.json`: `{"usage": ..., "reset_time": ...}`. -/
structure DailyUsageInfo where
  usage : Nat
  reset_time : Nat
deriving DecidableEq, Repr

/-- handlers.py `handle_text` lines 418-439: initialize a missing
`DAILY_USAGE` entry with `usage = 0, reset_time = now + 24h`, then lazily
zero it when `current_time > reset_time`. -/
def lazyReset (entry : Option DailyUsageInfo) (now : Nat) : DailyUsageInfo :=
  let u0 := entry.getD (DailyUsageInfo.mk 0 (now + daySecs))
  if decide (u0.reset_time < now) then DailyUsageInfo.mk 0 (now + daySecs) else u0

/-- Result of the non-premium pre-flight check of `handle_text`
(lines 441-460): either the lockout denial, or admission with the user
message's length already added to the counter. -/
structure FreeGateResult where
  denied : Bool
  remainingSecs : Nat
  info : DailyUsageInfo
deriving DecidableEq, Repr

/-- handlers.py `handle_text` lines 441-460 (non-premium path): deny when
`usage + msg_len > DAILY_LIMIT` (the entry keeps the lazily-reset value),
otherwise persist `usage += msg_len` and admit. -/
def freeGate (entry : Option DailyUsageInfo) (now msgLen : Nat) : FreeGateResult :=
  let u1 := lazyReset entry now
  if decide (dailyLimitChars < u1.usage + msgLen) then
    FreeGateResult.mk true (u1.reset_time - now) u1
  else
    FreeGateResult.mk false 0 (DailyUsageInfo.mk (u1.usage + msgLen) u1.reset_time)

/-- Verdict of the quota gate of `handle_text` for an ordinary
(non-menu) message. -/
inductive Verdict where
  | premiumUnlimited
  | denyLocked (remainingSecs : Nat)
  | admitted
deriving DecidableEq, Repr

/-- State observed after the gate ran: the verdict, the user's
`DAILY_USAGE` entry, and the `PREMIUM_USERS` map (which `handle_text`
never mutates). -/
structure GateResult where
  verdict : Verdict
  entry : Option DailyUsageInfo
  premiumAfter : List (Nat × Nat)
deriving DecidableEq, Repr

/-- Python `user_id in PREMIUM_USERS` (dict-membership only — the stored
expiry date is not consulted). -/
def isPremiumMember (premium : List (Nat × Nat)) (uid : Nat) : Bool :=
  premium.any (fun p => p.1 == uid)

/-- `PREMIUM_USERS[user_id]` for the dict modelled as an association list. -/
def lookupPremium (premium : List (Nat × Nat)) (uid : Nat) : Option Nat :=
  match premium.find? (fun p => p.1 == uid) with
  | some p => some p.2
  | none => none

/-- `del PREMIUM_USERS[user_id]`. -/
def removePremium (premium : List (Nat × Nat)) (uid : Nat) : List (Nat × Nat) :=
  premium.filter (fun p => !(p.1 == uid))

/-- handlers.py `handle_text` lines 406-460, the quota gate for an ordinary
(non-menu) message: a user present in `PREMIUM_USERS` is admitted
unconditionally (`if user_id in PREMIUM_USERS`) — the expiry timestamp is
not read and the map is not modified; everyone else goes through the daily
lockout-window logic. -/
def handle_text_gate (premium : List (Nat × Nat)) (uid : Nat)
    (entry : Option DailyUsageInfo) (now msgLen : Nat) : GateResult :=
  if isPremiumMember premium uid then
    GateResult.mk Verdict.premiumUnlimited entry premium
  else
    let fg := freeGate entry now msgLen
    if fg.denied then
      GateResult.mk (Verdict.denyLocked fg.remainingSecs) (some fg.info) premium
    else
      GateResult.mk Verdict.admitted (some fg.info) premium

/-- handlers.py `handle_text` lines 469-479, post-flight accounting: add the
reply's length and clamp the counter to `DAILY_LIMIT` when it overshoots;
a `None` reply adds nothing. -/
def postFlight (u : DailyUsageInfo) (reply : Option String) : DailyUsageInfo :=
  match reply with
  | none => u
  | some r =>
    let usage2 := u.usage + r.length
    DailyUsageInfo.mk (if decide (dailyLimitChars < usage2) then dailyLimitChars else usage2) u.reset_time

/-- Final persisted `DAILY_USAGE` entry of one non-premium turn, together
with whether the turn was denied. -/
structure TurnUsageResult where
  denied : Bool
  final : DailyUsageInfo
deriving DecidableEq, Repr

/-- The complete usage accounting of `handle_text` for one ordinary message
of a non-premium user: lazy reset, pre-flight check and charge, then
post-flight accounting of the reply. -/
def nonPremiumTurnUsage (entry : Option DailyUsageInfo) (now msgLen : Nat)
    (reply : Option String) : TurnUsageResult :=
  let fg := freeGate entry now msgLen
  if fg.denied then
    TurnUsageResult.mk true fg.info
  else
    TurnUsageResult.mk false (postFlight fg.info reply)

/-- The user-visible reply class of `handle_premium_subscription`. -/
inductive PremiumReplyKind where
  | expiredNotice
  | activeNotice
  | offerNotice
deriving DecidableEq, Repr

/-- handlers.py `handle_premium_subscription` (lines 644-678): the only
place where an expired `PREMIUM_USERS` entry is purged — triggered by the
menu command, it deletes the entry when `datetime.now() > end_date` and
reports expiry; otherwise it reports the active subscription or the offer. -/
def handle_premium_subscription (premium : List (Nat × Nat)) (uid now : Nat) :
    List (Nat × Nat) × PremiumReplyKind :=
  match lookupPremium premium uid with
  | some endDate =>
    if decide (endDate < now) then
      (removePremium premium uid, PremiumReplyKind.expiredNotice)
    else
      (premium, PremiumReplyKind.activeNotice)
  | none => (premium, PremiumReplyKind.offerNotice)

/-- One record of `users.json`. -/
structure UserRecord where
  user_id : Nat
  username : String
  gender : Option String
  free_trial_used : Bool
deriving DecidableEq, Repr

/-- First record with the given id, Python's linear scan of `users_data`. -/
def findUserRecord (users : List UserRecord) (uid : Nat) : Option UserRecord :=
  users.find? (fun u => u.user_id == uid)

/-- utils.py `get_free_trial_status`: the flag of the first matching record,
`False` when the user (or the file) is absent. -/
def get_free_trial_status (users : List UserRecord) (uid : Nat) : Bool :=
  match findUserRecord users uid with
  | some u => u.free_trial_used
  | none => false

/-- Update the first record with the given id (Python's `for ... break`). -/
def updateFirstUser (users : List UserRecord) (uid : Nat)
    (f : UserRecord → UserRecord) : List UserRecord :=
  match users with
  | [] => []
  | u :: rest =>
    if u.user_id == uid then f u :: rest else u :: updateFirstUser rest uid f

/-- utils.py `save_user_info`: no-op when the user exists, else appends a
fresh record with `gender = None` and `free_trial_used = False`. -/
def save_user_info (users : List UserRecord) (uid : Nat) (name : String) : List UserRecord :=
  if users.any (fun u => u.user_id == uid) then users
  else users ++ [UserRecord.mk uid name none false]

/-- utils.py `set_user_gender`: updates the gender of the first matching
record, else appends a record carrying the gender (trial flag `False`). -/
def set_user_gender (users : List UserRecord) (uid : Nat) (g : String) : List UserRecord :=
  if users.any (fun u => u.user_id == uid) then
    updateFirstUser users uid (fun u => UserRecord.mk u.user_id u.username (some g) u.free_trial_used)
  else
    users ++ [UserRecord.mk uid unknownUserText (some g) false]

/-- utils.py `set_free_trial_status`: updates the flag of the first matching
record, else appends a record carrying the flag. -/
def set_free_trial_status (users : List UserRecord) (uid : Nat) (status : Bool) : List UserRecord :=
  if users.any (fun u => u.user_id == uid) then
    updateFirstUser users uid (fun u => UserRecord.mk u.user_id u.username u.gender status)
  else
    users ++ [UserRecord.mk uid unknownUserText none status]

/-- The operations of the program that touch `users.json`.  The only call
site of `set_free_trial_status` (handlers.py line 367, taking the trial)
passes `True`; granting premium, clearing history and every other handler
leave the file untouched (`noTouch`). -/
inductive UserStoreOp where
  | saveInfo (uid : Nat) (name : String)
  | setGender (uid : Nat) (g : String)
  | takeTrial (uid : Nat)
  | noTouch
deriving DecidableEq, Repr

def applyUserStoreOp : UserStoreOp → List UserRecord → List UserRecord
  | UserStoreOp.saveInfo uid name, users => save_user_info users uid name
  | UserStoreOp.setGender uid g, users => set_user_gender users uid g
  | UserStoreOp.takeTrial uid, users => set_free_trial_status users uid true
  | UserStoreOp.noTouch, users => users

/-- Modelled from the spec: `update_inactivity_timestamp` is imported from
utils but absent from the sources; per §4.1 `touchActivity(userId)` updates
`lastActiveAt = now` in the per-user inactivity record (`inactivity.json`,
modelled as an association list user id ↦ last-activity timestamp). -/
def update_inactivity_timestamp (inact : List (Nat × Nat)) (uid now : Nat) : List (Nat × Nat) :=
  if inact.any (fun p => p.1 == uid) then
    inact.map (fun p => if p.1 == uid then (p.1, now) else p)
  else
    inact ++ [(uid, now)]

/-- Modelled from the spec: `remove_inactivity_record` is imported from
utils but absent from the sources; per §5/§7 it removes the user from
future sweep consideration by deleting their inactivity record. -/
def remove_inactivity_record (inact : List (Nat × Nat)) (uid : Nat) : List (Nat × Nat) :=
  inact.filter (fun p => !(p.1 == uid))

/-- Modelled from the spec: `get_inactive_users` is imported from utils but
absent from the sources; per §4.1 `listInactive(hours)` returns the users
whose `lastActiveAt` is older than the threshold (threshold in seconds here). -/
def get_inactive_users (inact : List (Nat × Nat)) (now thresholdSecs : Nat) : List Nat :=
  (inact.filter (fun p => decide (p.2 + thresholdSecs < now))).map (fun p => p.1)

/-- Outcome of one proactive contact attempt of the inactivity sweep
(`context.bot.get_chat` / `send_message` in main.py). -/
inductive SendOutcome where
  | delivered
  | forbidden
  | badRequest
  | otherError
deriving DecidableEq, Repr

/-- main.py `job_check_inactive_users`, per-user body (lines 46-75): on
success the activity timestamp is refreshed; `Forbidden` (user blocked the
bot) deletes the inactivity record; `BadRequest` ("could not contact the
user") and any other exception are only logged — the record is kept. -/
def sweepUserStep (inact : List (Nat × Nat)) (uid now : Nat) : SendOutcome → List (Nat × Nat)
  | SendOutcome.delivered => update_inactivity_timestamp inact uid now
  | SendOutcome.forbidden => remove_inactivity_record inact uid
  | SendOutcome.badRequest => inact
  | SendOutcome.otherError => inact

/-- handlers.py `get_openroute_response` lines 195-205: the similarity
augmentation block — the announcing system preamble followed by one system
message per similarity result. -/
def augmentationMsgs (similar : List String) : List Msg :=
  Msg.mk roleSystem announceText ::
    similar.map (fun m => Msg.mk roleSystem (String.append augMarker m))

/-- A message of the similarity augmentation block: the announcing preamble
or a per-result message. -/
def isAugMsg (m : Msg) : Prop :=
  m.role = roleSystem ∧ (m.content = announceText ∨ augMarker.data.isPrefixOf m.content.data = true)

instance (m : Msg) : Decidable (isAugMsg m) := by
  unfold isAugMsg
  infer_instance

/-- One full admitted ordinary turn as performed by `process_user_message` /
`get_openroute_response`: the user message is appended to the durable
history (`add_message`), the request sent to the model is the freshly loaded
history plus the augmentation block (the augmented list is a local variable,
never saved), and the reply is appended to the durable history.  Returns the
request message list and the final persisted history. -/
def processTurn (isPremium : Bool) (gender : Option String)
    (summ1 summ2 : UpstreamResult) (now : Nat) (hist0 : List Msg)
    (prompt : String) (similar : List String) (model : UpstreamResult) :
    List Msg × List Msg :=
  let persisted1 := (add_message isPremium gender summ1 now hist0 roleUser [prompt]).history
  let request := persisted1 ++ augmentationMsgs similar
  let reply := getOpenrouteReply model
  let persisted2 := (add_message isPremium gender summ2 now persisted1 roleAssistant [reply]).history
  (request, persisted2)

/-- Sample summary text for concrete evaluations. -/
def sampleSummaryText : String := "кратко"

def xText : String := "x"

def helloText : String := "hello"

/-- A 7000-character user message, used to cross the daily-budget threshold. -/
def bigMsg : Msg := Msg.mk roleUser (String.mk (List.replicate 7000 'a'))

/-! ## Helper lemmas -/

theorem string_append_data (a b : String) : (String.append a b).data = a.data ++ b.data :=
  String.data_append a b

theorem isPrefixOf_append_self (l t : List Char) : l.isPrefixOf (l ++ t) = true := by
  induction l with
  | nil => simp [List.isPrefixOf]
  | cons a as ih => simp [List.isPrefixOf, ih]

theorem strContains_of_marker (mk t : String) :
    strContains (String.append mk t) mk = true := by
  unfold strContains
  rw [List.any_eq_true]
  refine ⟨0, ?_, ?_⟩
  · simp
  · rw [string_append_data]
    simp [isPrefixOf_append_self]

theorem bigMsg_content_length : bigMsg.content.length = 7000 := by
  have h : bigMsg.content.length = (List.replicate 7000 'a').length := rfl
  rw [h, List.length_replicate]

theorem isPremiumMember_removePremium (premium : List (Nat × Nat)) (uid : Nat) :
    isPremiumMember (removePremium premium uid) uid = false := by
  unfold isPremiumMember removePremium
  rw [Bool.eq_false_iff]
  intro hc
  rw [List.any_eq_true] at hc
  obtain ⟨p, hp, hbeq⟩ := hc
  rw [List.mem_filter] at hp
  rw [hbeq] at hp
  simp at hp

/-! ## C1 -/

/-- C1 counterexample: user 1's premium expired at time 100, yet at time 200
an ordinary message still takes the unconditional premium ADMIT path of
`handle_text` (membership in `PREMIUM_USERS` is all that is checked) and the
expired entry is not purged on that read. -/
theorem c1_counterexample :
    (100 : Nat) < 200
    ∧ (handle_text_gate [(1, 100)] 1 none 200 5).verdict = Verdict.premiumUnlimited
    ∧ (handle_text_gate [(1, 100)] 1 none 200 5).premiumAfter = [(1, 100)] := by
  refine ⟨by decide, ?_, ?_⟩ <;> rfl

/-- C1 (amended): for a user present in `PREMIUM_USERS` — even with an expiry
timestamp in the past — an ordinary message takes the unconditional premium
ADMIT path and leaves the premium map untouched; the expired entry is purged
only by the `Premium подписка` menu handler, which deletes it, reports the
expiry, and leaves the user no longer a premium member. -/
theorem c1_theorem (premium : List (Nat × Nat)) (uid : Nat)
    (entry : Option DailyUsageInfo) (now msgLen endDate : Nat)
    (hmem : isPremiumMember premium uid = true)
    (hlook : lookupPremium premium uid = some endDate)
    (hexp : endDate < now) :
    (handle_text_gate premium uid entry now msgLen).verdict = Verdict.premiumUnlimited
    ∧ (handle_text_gate premium uid entry now msgLen).premiumAfter = premium
    ∧ (handle_premium_subscription premium uid now).1 = removePremium premium uid
    ∧ (handle_premium_subscription premium uid now).2 = PremiumReplyKind.expiredNotice
    ∧ isPremiumMember (handle_premium_subscription premium uid now).1 uid = false := by
  have hgate : handle_text_gate premium uid entry now msgLen =
      GateResult.mk Verdict.premiumUnlimited entry premium := by
    unfold handle_text_gate
    rw [hmem]
    rfl
  have hsub : handle_premium_subscription premium uid now =
      (removePremium premium uid, PremiumReplyKind.expiredNotice) := by
    unfold handle_premium_subscription
    rw [hlook]
    simp [hexp]
  refine ⟨?_, ?_, ?_, ?_, ?_⟩
  · rw [hgate]
  · rw [hgate]
  · rw [hsub]
  · rw [hsub]
  · rw [hsub]
    exact isPremiumMember_removePremium premium uid

/-- C1 witness: the amended statement evaluated at user 1, premium map
`[(1, 100)]`, current time 200. -/
theorem c1_witness :
    (handle_text_gate [(1, 100)] 1 none 200 5).verdict = Verdict.premiumUnlimited
    ∧ (handle_text_gate [(1, 100)] 1 none 200 5).premiumAfter = [(1, 100)]
    ∧ (handle_premium_subscription [(1, 100)] 1 200).1 = removePremium [(1, 100)] 1
    ∧ (handle_premium_subscription [(1, 100)] 1 200).2 = PremiumReplyKind.expiredNotice
    ∧ isPremiumMember (handle_premium_subscription [(1, 100)] 1 200).1 1 = false :=
  c1_theorem [(1, 100)] 1 none 200 5 100 (by decide) (by decide) (by decide)

/-! ## C2 -/

/-- C2 counterexample: a fresh non-premium user (no usage record, usage 0)
sending a 7500-character message against the 7000-character budget is NOT
admitted — the pre-flight check denies it outright with the lockout reply,
and nothing is charged (the stored usage stays 0). -/
theorem c2_counterexample :
    (handle_text_gate [] 7 none 0 7500).verdict = Verdict.denyLocked daySecs
    ∧ (handle_text_gate [] 7 none 0 7500).entry = some (DailyUsageInfo.mk 0 daySecs) := by
  refine ⟨?_, ?_⟩ <;> rfl

/-- C2 (amended): for a non-premium user the pre-flight check denies any
message whose length plus the current (lazily reset) usage exceeds the
7000-character budget — including the triggering message itself on a fresh
window — leaving the counter unchanged; only when the sum stays within the
budget is the message admitted, with its length charged immediately. -/
theorem c2_theorem (premium : List (Nat × Nat)) (uid : Nat)
    (entry : Option DailyUsageInfo) (now msgLen : Nat)
    (hnp : isPremiumMember premium uid = false) :
    (dailyLimitChars < (lazyReset entry now).usage + msgLen →
      handle_text_gate premium uid entry now msgLen =
        GateResult.mk (Verdict.denyLocked ((lazyReset entry now).reset_time - now))
          (some (lazyReset entry now)) premium)
    ∧ ((lazyReset entry now).usage + msgLen ≤ dailyLimitChars →
      handle_text_gate premium uid entry now msgLen =
        GateResult.mk Verdict.admitted
          (some (DailyUsageInfo.mk ((lazyReset entry now).usage + msgLen)
            (lazyReset entry now).reset_time)) premium) := by
  constructor
  · intro hover
    unfold handle_text_gate freeGate
    rw [hnp]
    simp [hover]
  · intro hunder
    unfold handle_text_gate freeGate
    rw [hnp]
    simp [Nat.not_lt.mpr hunder]

/-- C2 witness: the amended statement for a fresh user sending 7500
characters — the deny branch applies. -/
theorem c2_witness :
    handle_text_gate [] 7 none 0 7500 =
      GateResult.mk (Verdict.denyLocked ((lazyReset none 0).reset_time - 0))
        (some (lazyReset none 0)) [] :=
  (c2_theorem [] 7 none 0 7500 (by decide)).1 (by decide)

/-! ## C3 -/

theorem totalChars_big_plus_x :
    totalChars ([bigMsg] ++ (List.map (fun c => Msg.mk roleAssistant c) [xText])) = 7001 := by
  unfold totalChars
  rw [List.map_append]
  rw [List.sum_append]
  simp only [List.map_map, List.map_cons, List.map_nil, List.sum_cons, List.sum_nil]
  rw [bigMsg_content_length]
  decide

/-- C3 counterexample: a non-premium append that takes the ledger from 7000
to 7001 characters (over the 7000 daily budget, far below the 50000
summarization limit) does NOT leave the ledger unchanged: `add_message`
summarizes, resets the history to the reseed sequence, and records the
daily-limit timestamp. -/
theorem c3_counterexample :
    (add_message false none (UpstreamResult.ok sampleSummaryText) 50 [bigMsg]
        roleAssistant [xText]).summarized = true
    ∧ (add_message false none (UpstreamResult.ok sampleSummaryText) 50 [bigMsg]
        roleAssistant [xText]).history = [personaMsg, summaryMsg sampleSummaryText]
    ∧ (add_message false none (UpstreamResult.ok sampleSummaryText) 50 [bigMsg]
        roleAssistant [xText]).dailyLimitAt = some 50 := by
  have h : add_message false none (UpstreamResult.ok sampleSummaryText) 50 [bigMsg]
      roleAssistant [xText] =
      AddMsgResult.mk (reset_history none (summarize_conversation
        (UpstreamResult.ok sampleSummaryText))) true (some 50) := by
    simp only [add_message]
    rw [totalChars_big_plus_x]
    rfl
  rw [h]
  exact ⟨rfl, rfl, rfl⟩

/-- C3 (amended): for a non-premium user, an append that pushes the total
ledger character count over the daily-budget threshold always triggers
summarization — the history is reset to the reseed sequence AND the
daily-limit timestamp is recorded on the same append; the two triggers are
coupled, not orthogonal. -/
theorem c3_theorem (gender : Option String) (upstream : UpstreamResult) (now : Nat)
    (hist : List Msg) (role : String) (content : List String)
    (hover : dailyLimitChars < totalChars (hist ++ content.map (fun c => Msg.mk role c))) :
    add_message false gender upstream now hist role content =
      AddMsgResult.mk (reset_history gender (summarize_conversation upstream))
        true (some now) := by
  unfold add_message
  simp [hover]

/-- C3 witness: the amended statement at the concrete 7001-character append. -/
theorem c3_witness :
    add_message false none (UpstreamResult.ok sampleSummaryText) 50 [bigMsg]
        roleAssistant [xText] =
      AddMsgResult.mk (reset_history none (summarize_conversation
        (UpstreamResult.ok sampleSummaryText))) true (some 50) :=
  c3_theorem none (UpstreamResult.ok sampleSummaryText) 50 [bigMsg] roleAssistant [xText]
    (by rw [totalChars_big_plus_x]; decide)

/-! ## C4 -/

/-- C4: resetting the ledger (as done after summarization) and immediately
loading it yields exactly `[System(persona)]`, then the gender-hint system
message iff a shown gender is set (stated and different from the decline
option), then the summary-note system message — nothing else, in this
order.  In particular the load's lazy gender-hint insertion does not fire
again on a freshly reset ledger. -/
theorem c4_theorem (gender : Option String) (s : String) :
    load_user_history gender (reset_history gender s) =
      personaMsg ::
        ((if genderShown gender then [genderHintMsg (genderOrEmpty gender)] else []) ++
          [summaryMsg s]) := by
  match gender with
  | none =>
    simp [load_user_history, reset_history, genderShown]
  | some g =>
    by_cases hE : (g == emptyText) = true
    · simp [load_user_history, reset_history, genderShown, hE]
    · by_cases hD : (g == declineGenderText) = true
      · simp [load_user_history, reset_history, genderShown, hE, hD]
      · have hshape : reset_history (some g) s = [personaMsg, genderHintMsg g, summaryMsg s] := by
          simp [reset_history, hE, hD]
        have hshown : genderShown (some g) = true := by
          simp [genderShown, hE, hD]
        have hcont : strContains (genderHintMsg g).content genderMarker = true :=
          strContains_of_marker genderMarker (String.append (ruLower g) ".")
        have hasG : (reset_history (some g) s).any
            (fun m => m.role == roleSystem && strContains m.content genderMarker) = true := by
          rw [hshape]
          rw [List.any_eq_true]
          exact ⟨genderHintMsg g, by simp, by rw [hcont]; simp [genderHintMsg]⟩
        unfold load_user_history
        rw [hasG, hshown, hshape]
        simp [genderOrEmpty]

/-! ## C5 -/

/-- C5: when the summarization call fails (HTTP error or any other
exception), `summarize_conversation` returns one of the two fixed
human-readable failure strings instead of propagating (it is a total
function, so the turn cannot crash on it), and `add_message` still resets
the ledger using that failure string in place of the summary. -/
theorem c5_theorem (r : UpstreamResult) (gender : Option String) (now : Nat)
    (hist : List Msg) (role : String) (content : List String)
    (hr : r = UpstreamResult.httpError ∨ r = UpstreamResult.otherError)
    (hover : dailyLimitChars < totalChars (hist ++ content.map (fun c => Msg.mk role c))) :
    (summarize_conversation r = serverFailText ∨ summarize_conversation r = unknownFailText)
    ∧ (add_message false gender r now hist role content).history =
        reset_history gender (summarize_conversation r) := by
  constructor
  · rcases hr with h | h
    · left
      rw [h]
      rfl
    · right
      rw [h]
      rfl
  · unfold add_message
    simp [hover]

/-- C5 witness: an HTTP failure of the summarizer during the concrete
7001-character append still yields the fixed failure string and a reset
ledger seeded with it. -/
theorem c5_witness :
    (summarize_conversation UpstreamResult.httpError = serverFailText
      ∨ summarize_conversation UpstreamResult.httpError = unknownFailText)
    ∧ (add_message false none UpstreamResult.httpError 50 [bigMsg]
        roleAssistant [xText]).history =
        reset_history none (summarize_conversation UpstreamResult.httpError) :=
  c5_theorem UpstreamResult.httpError none 50 [bigMsg] roleAssistant [xText]
    (Or.inl rfl) (by rw [totalChars_big_plus_x]; decide)

/-! ## C6 -/

/-- C6: for an admitted non-premium turn whose model call fails (so the
reply handed back and accounted is the fixed apology), the pre-flight charge
of the user message's length is not rolled back — the persisted usage at
the end of the turn is at least the lazily-reset usage plus the message
length. -/
theorem c6_theorem (entry : Option DailyUsageInfo) (now msgLen : Nat)
    (r : UpstreamResult)
    (hr : r = UpstreamResult.httpError ∨ r = UpstreamResult.otherError)
    (hadm : (freeGate entry now msgLen).denied = false) :
    (lazyReset entry now).usage + msgLen ≤
      (nonPremiumTurnUsage entry now msgLen (some (getOpenrouteReply r))).final.usage := by
  rcases Nat.lt_or_ge dailyLimitChars ((lazyReset entry now).usage + msgLen) with hover | hunder
  · exfalso
    unfold freeGate at hadm
    simp [hover] at hadm
  · unfold nonPremiumTurnUsage freeGate postFlight
    simp [Nat.not_lt.mpr hunder]
    split
    · exact hunder
    · exact Nat.le_add_right _ _

/-- C6 witness: usage 6000 of 7000 spent, a 500-character message admitted,
model call fails with an HTTP error — the 500 characters stay charged. -/
theorem c6_witness :
    (lazyReset (some (DailyUsageInfo.mk 6000 1000)) 100).usage + 500 ≤
      (nonPremiumTurnUsage (some (DailyUsageInfo.mk 6000 1000)) 100 500
        (some (getOpenrouteReply UpstreamResult.httpError))).final.usage :=
  c6_theorem (some (DailyUsageInfo.mk 6000 1000)) 100 500 UpstreamResult.httpError
    (Or.inl rfl) (by decide)

/-! ## C7 -/

theorem get_free_trial_status_cons (u : UserRecord) (rest : List UserRecord) (uid : Nat) :
    get_free_trial_status (u :: rest) uid =
      if (u.user_id == uid) = true then u.free_trial_used
      else get_free_trial_status rest uid := by
  unfold get_free_trial_status findUserRecord
  rw [List.find?_cons]
  by_cases hu : (u.user_id == uid) = true
  · rw [if_pos hu, hu]
  · rw [if_neg hu, Bool.eq_false_iff.mpr hu]

theorem get_free_trial_status_append (users : List UserRecord) (uid : Nat)
    (rec : UserRecord) (h : get_free_trial_status users uid = true) :
    get_free_trial_status (users ++ [rec]) uid = true := by
  induction users with
  | nil =>
    simp [get_free_trial_status, findUserRecord] at h
  | cons u rest ih =>
    rw [List.cons_append]
    rw [get_free_trial_status_cons] at h ⊢
    by_cases hu : (u.user_id == uid) = true
    · rw [if_pos hu] at h ⊢
      exact h
    · rw [if_neg hu] at h ⊢
      exact ih h

theorem get_free_trial_status_updateFirst (users : List UserRecord) (uid uid' : Nat)
    (f : UserRecord → UserRecord)
    (hid : ∀ u, (f u).user_id = u.user_id)
    (hmono : ∀ u, u.free_trial_used = true → (f u).free_trial_used = true)
    (h : get_free_trial_status users uid = true) :
    get_free_trial_status (updateFirstUser users uid' f) uid = true := by
  induction users with
  | nil =>
    exact h
  | cons u rest ih =>
    rw [get_free_trial_status_cons] at h
    unfold updateFirstUser
    by_cases hu' : (u.user_id == uid') = true
    · rw [if_pos hu']
      rw [get_free_trial_status_cons]
      by_cases hu : (u.user_id == uid) = true
      · rw [if_pos hu] at h
        have hfu : ((f u).user_id == uid) = true := by
          rw [hid u]
          exact hu
        rw [if_pos hfu]
        exact hmono u h
      · rw [if_neg hu] at h
        have hfu : ¬ ((f u).user_id == uid) = true := by
          rw [hid u]
          exact hu
        rw [if_neg hfu]
        exact h
    · rw [if_neg hu']
      rw [get_free_trial_status_cons]
      by_cases hu : (u.user_id == uid) = true
      · rw [if_pos hu] at h
        rw [if_pos hu]
        exact h
      · rw [if_neg hu] at h
        rw [if_neg hu]
        exact ih h

/-- C7: the persisted `free_trial_used` flag is monotonic — once true, no
operation of the program that touches `users.json` (registering the user,
setting the gender, taking the trial, or any handler that leaves the file
alone, such as granting premium or clearing history) ever sets it back to
false. -/
theorem c7_theorem (op : UserStoreOp) (users : List UserRecord) (uid : Nat)
    (h : get_free_trial_status users uid = true) :
    get_free_trial_status (applyUserStoreOp op users) uid = true := by
  cases op with
  | saveInfo uid' name =>
    show get_free_trial_status (save_user_info users uid' name) uid = true
    unfold save_user_info
    split
    · exact h
    · exact get_free_trial_status_append users uid _ h
  | setGender uid' g =>
    show get_free_trial_status (set_user_gender users uid' g) uid = true
    unfold set_user_gender
    split
    · exact get_free_trial_status_updateFirst users uid uid' _
        (fun u => rfl) (fun u hu => hu) h
    · exact get_free_trial_status_append users uid _ h
  | takeTrial uid' =>
    show get_free_trial_status (set_free_trial_status users uid' true) uid = true
    unfold set_free_trial_status
    split
    · exact get_free_trial_status_updateFirst users uid uid' _
        (fun u => rfl) (fun u _ => rfl) h
    · exact get_free_trial_status_append users uid _ h
  | noTouch =>
    exact h

/-- C7 witness: user 5 has used the trial; registering them again via
`save_user_info` leaves the flag true. -/
theorem c7_witness :
    get_free_trial_status
      (applyUserStoreOp (UserStoreOp.saveInfo 5 helloText)
        [UserRecord.mk 5 helloText none true]) 5 = true :=
  c7_theorem (UserStoreOp.saveInfo 5 helloText) [UserRecord.mk 5 helloText none true] 5
    (by rfl)

/-! ## C8 -/

/-- C8 counterexample: user 5 (last active at time 0, well past a 120-hour
threshold) is selected by the sweep; the proactive contact fails because the
recipient is unreachable with `BadRequest` ("could not contact the user") —
yet the inactivity record survives untouched and the user is STILL returned
as a sweep candidate by a later scan, contradicting permanent removal. -/
theorem c8_counterexample :
    sweepUserStep [(5, 0)] 5 1000 SendOutcome.badRequest = [(5, 0)]
    ∧ get_inactive_users (sweepUserStep [(5, 0)] 5 1000 SendOutcome.badRequest)
        1000000 432000 = [5] := by
  exact ⟨rfl, rfl⟩

/-- C8 (amended): the sweep removes a user from future candidates only when
the failure is `Forbidden` (the recipient blocked the bot) — then the
inactivity record is deleted and no later scan returns the user; a
`BadRequest` or any other delivery failure leaves the record intact, so the
user is merely skipped for the current iteration. -/
theorem c8_theorem (inact : List (Nat × Nat)) (uid now now' thr : Nat) :
    ((sweepUserStep inact uid now SendOutcome.forbidden).all
        (fun p => !(p.1 == uid)) = true)
    ∧ uid ∉ get_inactive_users (sweepUserStep inact uid now SendOutcome.forbidden) now' thr
    ∧ sweepUserStep inact uid now SendOutcome.badRequest = inact
    ∧ sweepUserStep inact uid now SendOutcome.otherError = inact := by
  refine ⟨?_, ?_, rfl, rfl⟩
  · show (remove_inactivity_record inact uid).all (fun p => !(p.1 == uid)) = true
    rw [List.all_eq_true]
    intro p hp
    unfold remove_inactivity_record at hp
    exact (List.mem_filter.mp hp).2
  · show uid ∉ get_inactive_users (remove_inactivity_record inact uid) now' thr
    intro hmem
    unfold get_inactive_users remove_inactivity_record at hmem
    rw [List.mem_map] at hmem
    obtain ⟨p, hp, hfst⟩ := hmem
    rw [List.mem_filter] at hp
    have hp2 := (List.mem_filter.mp hp.1).2
    rw [hfst] at hp2
    simp at hp2

/-! ## C9 -/

theorem lazyReset_le (entry : Option DailyUsageInfo) (now : Nat)
    (hinv : ∀ u, entry = some u → u.usage ≤ dailyLimitChars) :
    (lazyReset entry now).usage ≤ dailyLimitChars := by
  cases entry with
  | none =>
    simp only [lazyReset, Option.getD]
    split
    · exact Nat.zero_le _
    · exact Nat.zero_le _
  | some u =>
    simp only [lazyReset, Option.getD]
    split
    · exact Nat.zero_le _
    · exact hinv u rfl

/-- C9: the persisted daily usage counter of a non-premium user never
exceeds the 7000-character daily limit — assuming the incoming entry
respects the bound (a missing entry is initialized to 0), the pre-flight
check only charges the user message when the sum stays within the limit,
and the post-flight accounting clamps the counter to exactly the limit
when the reply would push it over. -/
theorem c9_theorem (entry : Option DailyUsageInfo) (now msgLen : Nat)
    (reply : Option String)
    (hinv : ∀ u, entry = some u → u.usage ≤ dailyLimitChars) :
    (nonPremiumTurnUsage entry now msgLen reply).final.usage ≤ dailyLimitChars := by
  have h1 := lazyReset_le entry now hinv
  unfold nonPremiumTurnUsage freeGate
  rcases Nat.lt_or_ge dailyLimitChars ((lazyReset entry now).usage + msgLen) with hover | hunder
  · simp [hover]
    exact h1
  · simp [Nat.not_lt.mpr hunder]
    unfold postFlight
    cases reply with
    | none =>
      exact hunder
    | some r =>
      simp only
      split
      · exact Nat.le_refl _
      · rename_i hnot
        rw [decide_eq_true_eq] at hnot
        exact Nat.not_lt.mp hnot

/-- C9 witness: a fresh user (no entry) sending 100 characters and getting
a reply keeps the counter within the limit. -/
theorem c9_witness :
    (nonPremiumTurnUsage none 0 100 (some helloText)).final.usage ≤ dailyLimitChars :=
  c9_theorem none 0 100 (some helloText)
    (fun u hu => Option.noConfusion hu)

/-! ## C10 -/

theorem not_aug_persona : ¬ isAugMsg personaMsg := by
  intro hc
  unfold isAugMsg at hc
  obtain ⟨-, hc2⟩ := hc
  rcases hc2 with heq | hpre
  · have h1 : systemPromptText.data.head? = announceText.data.head? := by
      show personaMsg.content.data.head? = announceText.data.head?
      rw [heq]
    have h2 : systemPromptText.data.head? = some '\n' := rfl
    have h3 : announceText.data.head? = some 'Т' := rfl
    rw [h2, h3] at h1
    exact absurd h1 (by decide)
  · have h4 : augMarker.data.isPrefixOf personaMsg.content.data = false := rfl
    rw [h4] at hpre
    exact absurd hpre (by decide)

theorem not_aug_gender_append (t : String) :
    ¬ isAugMsg (Msg.mk roleSystem (String.append genderMarker t)) := by
  intro hc
  unfold isAugMsg at hc
  obtain ⟨-, hc2⟩ := hc
  rcases hc2 with heq | hpre
  · have h1 : (String.append genderMarker t).data.head? = announceText.data.head? := by
      show (Msg.mk roleSystem (String.append genderMarker t)).content.data.head? =
        announceText.data.head?
      rw [heq]
    rw [string_append_data] at h1
    have h2 : (genderMarker.data ++ t.data).head? = some 'В' := rfl
    have h3 : announceText.data.head? = some 'Т' := rfl
    rw [h2, h3] at h1
    exact absurd h1 (by decide)
  · rw [show (Msg.mk roleSystem (String.append genderMarker t)).content =
      String.append genderMarker t from rfl] at hpre
    rw [string_append_data] at hpre
    have h4 : augMarker.data.isPrefixOf (genderMarker.data ++ t.data) = false := rfl
    rw [h4] at hpre
    exact absurd hpre (by decide)

theorem not_aug_summary_append (t : String) :
    ¬ isAugMsg (Msg.mk roleSystem (String.append summaryMarker t)) := by
  intro hc
  unfold isAugMsg at hc
  obtain ⟨-, hc2⟩ := hc
  rcases hc2 with heq | hpre
  · have h1 : (String.append summaryMarker t).data.head? = announceText.data.head? := by
      show (Msg.mk roleSystem (String.append summaryMarker t)).content.data.head? =
        announceText.data.head?
      rw [heq]
    rw [string_append_data] at h1
    have h2 : (summaryMarker.data ++ t.data).head? = some 'В' := rfl
    have h3 : announceText.data.head? = some 'Т' := rfl
    rw [h2, h3] at h1
    exact absurd h1 (by decide)
  · rw [show (Msg.mk roleSystem (String.append summaryMarker t)).content =
      String.append summaryMarker t from rfl] at hpre
    rw [string_append_data] at hpre
    have h4 : augMarker.data.isPrefixOf (summaryMarker.data ++ t.data) = false := rfl
    rw [h4] at hpre
    exact absurd hpre (by decide)

theorem not_aug_reset (gender : Option String) (s : String) :
    ∀ m ∈ reset_history gender s, ¬ isAugMsg m := by
  intro m hm
  cases gender with
  | none =>
    rw [show reset_history none s = [personaMsg, summaryMsg s] from rfl] at hm
    simp only [List.mem_cons, List.not_mem_nil, or_false] at hm
    rcases hm with hm | hm
    · rw [hm]
      exact not_aug_persona
    · rw [hm]
      exact not_aug_summary_append s
  | some g =>
    rw [show reset_history (some g) s =
      (if (!(g == emptyText) && !(g == declineGenderText)) = true then
        [personaMsg, genderHintMsg g, summaryMsg s]
      else [personaMsg, summaryMsg s]) from rfl] at hm
    by_cases hcond : (!(g == emptyText) && !(g == declineGenderText)) = true
    · rw [if_pos hcond] at hm
      simp only [List.mem_cons, List.not_mem_nil, or_false] at hm
      rcases hm with hm | hm | hm
      · rw [hm]
        exact not_aug_persona
      · rw [hm]
        exact not_aug_gender_append (String.append (ruLower g) ".")
      · rw [hm]
        exact not_aug_summary_append s
    · rw [if_neg hcond] at hm
      simp only [List.mem_cons, List.not_mem_nil, or_false] at hm
      rcases hm with hm | hm
      · rw [hm]
        exact not_aug_persona
      · rw [hm]
        exact not_aug_summary_append s

theorem add_message_clean (isPremium : Bool) (gender : Option String)
    (upstream : UpstreamResult) (now : Nat) (hist : List Msg) (role : String)
    (content : List String) (hrole : ¬ role = roleSystem)
    (hclean : ∀ m ∈ hist, ¬ isAugMsg m) :
    ∀ m ∈ (add_message isPremium gender upstream now hist role content).history,
      ¬ isAugMsg m := by
  intro m hm
  simp only [add_message] at hm
  split at hm
  · exact not_aug_reset gender (summarize_conversation upstream) m hm
  · split at hm
    · exact not_aug_reset gender (summarize_conversation upstream) m hm
    · rw [List.mem_append] at hm
      rcases hm with h | h
      · exact hclean m h
      · rw [List.mem_map] at h
        obtain ⟨c, -, hc⟩ := h
        rw [← hc]
        intro haug
        unfold isAugMsg at haug
        exact hrole haug.1

/-- C10: the similarity-search augmentation messages are appended only to
the in-memory request sent to the model backend (the request is exactly the
persisted history plus the augmentation block), never to the durable ledger:
the persisted history after the turn is independent of the similarity
results, and — provided the prior history contains no augmentation message —
the persisted history after the turn contains none either. -/
theorem c10_theorem (isPremium : Bool) (gender : Option String)
    (summ1 summ2 : UpstreamResult) (now : Nat) (hist0 : List Msg)
    (prompt : String) (similar : List String) (model : UpstreamResult)
    (hclean : ∀ m ∈ hist0, ¬ isAugMsg m) :
    (processTurn isPremium gender summ1 summ2 now hist0 prompt similar model).1 =
      (add_message isPremium gender summ1 now hist0 roleUser [prompt]).history ++
        augmentationMsgs similar
    ∧ (processTurn isPremium gender summ1 summ2 now hist0 prompt similar model).2 =
      (processTurn isPremium gender summ1 summ2 now hist0 prompt [] model).2
    ∧ ∀ m ∈ (processTurn isPremium gender summ1 summ2 now hist0 prompt similar model).2,
        ¬ isAugMsg m := by
  refine ⟨rfl, rfl, ?_⟩
  show ∀ m ∈ (add_message isPremium gender summ2 now
      (add_message isPremium gender summ1 now hist0 roleUser [prompt]).history
      roleAssistant [getOpenrouteReply model]).history, ¬ isAugMsg m
  apply add_message_clean
  · intro hr
    exact absurd hr (by decide)
  · apply add_message_clean
    · intro hr
      exact absurd hr (by decide)
    · exact hclean

/-- C10 witness: a concrete turn over the seeded history with one
similarity result. -/
theorem c10_witness :
    (processTurn false none (UpstreamResult.ok sampleSummaryText)
        (UpstreamResult.ok sampleSummaryText) 0 [personaMsg] xText [helloText]
        (UpstreamResult.ok helloText)).1 =
      (add_message false none (UpstreamResult.ok sampleSummaryText) 0 [personaMsg]
        roleUser [xText]).history ++ augmentationMsgs [helloText]
    ∧ (processTurn false none (UpstreamResult.ok sampleSummaryText)
        (UpstreamResult.ok sampleSummaryText) 0 [personaMsg] xText [helloText]
        (UpstreamResult.ok helloText)).2 =
      (processTurn false none (UpstreamResult.ok sampleSummaryText)
        (UpstreamResult.ok sampleSummaryText) 0 [personaMsg] xText []
        (UpstreamResult.ok helloText)).2
    ∧ ∀ m ∈ (processTurn false none (UpstreamResult.ok sampleSummaryText)
        (UpstreamResult.ok sampleSummaryText) 0 [personaMsg] xText [helloText]
        (UpstreamResult.ok helloText)).2, ¬ isAugMsg m :=
  c10_theorem false none (UpstreamResult.ok sampleSummaryText)
    (UpstreamResult.ok sampleSummaryText) 0 [personaMsg] xText [helloText]
    (UpstreamResult.ok helloText)
    (by
      intro m hm
      rw [List.mem_singleton] at hm
      rw [hm]
      exact not_aug_persona)

end Feelix
